import Mathlib

/-!
Shallow embedding of the flowmap-effect demo (src/src/js/index.js and the
unnamed copy src/unnamed/part_000).  Numbers are modelled as rationals;
the three stateful functions of the core loop (resize, updateMouse, update)
are embedded as pure state transformers over a record that holds every
module-level mutable the functions touch.  The OGL library (Vec2, Vec4,
Flowmap, Renderer) is an external CDN dependency whose code is not in the
repository; the few pieces of its interface the loop relies on (vector
set/copy/lerp, length truthiness) are modelled from the spec, as noted on
each definition.
-/

namespace FlowmapEffect

/-- Two-component vector of rationals, standing in for OGL's Vec2
(external dependency).  Modelled from the spec: the loop only uses
construction, set, copy and lerp. -/
structure Vec2 where
  x : ℚ
  y : ℚ
deriving DecidableEq, Repr

/-- Three-component color sample (r, g, b), as read from a texture in the
fragment shader. -/
structure Vec3 where
  r : ℚ
  g : ℚ
  b : ℚ
deriving DecidableEq, Repr

/-- Four-component vector, standing in for OGL's Vec4 / GLSL vec4. -/
structure Vec4Q where
  x : ℚ
  y : ℚ
  z : ℚ
  w : ℚ
deriving DecidableEq, Repr

/-- Modelled from the spec: OGL's Vec2.lerp(v, t) linearly interpolates the
receiver toward v by factor t (this.x += t * (v.x - this.x), same for y).
OGL is an external dependency not under src/. -/
def Vec2.lerp (a target : Vec2) (t : ℚ) : Vec2 :=
  ⟨a.x + t * (target.x - a.x), a.y + t * (target.y - a.y)⟩

/-- JavaScript truthiness of the `lastTime` module variable: `undefined`
(modelled as none) is falsy, a number is falsy exactly when it is zero.
Used for the `if (!lastTime)` first-event seeding in updateMouse. -/
def jsTruthyNum : Option ℚ → Bool
  | none => false
  | some q => decide (q ≠ 0)

/-- A pointer/touch event as delivered by the host.  `changedTouches`
carries (pageX, pageY) pairs for touch events; `xInit`/`yInit` are the
event's own x/y fields when the host defines them (MouseEvent does);
`pageX`/`pageY` are always present. -/
structure PointerEvent where
  changedTouches : List (ℚ × ℚ)
  xInit : Option ℚ
  yInit : Option ℚ
  pageX : ℚ
  pageY : ℚ

/-- Coordinate extraction at the top of updateMouse: a first changed touch
overrides e.x/e.y; otherwise, when e.x is undefined, pageX/pageY are used
(we assume y is defined exactly when x is, as in every host event). -/
def eventXY (e : PointerEvent) : ℚ × ℚ :=
  match e.changedTouches with
  | t :: _ => t
  | [] =>
    match e.xInit, e.yInit with
    | some x, some y => (x, y)
    | _, _ => (e.pageX, e.pageY)

/-- Externally visible calls a frame tick performs, in program order. -/
inductive TickEvent where
  | rearm
  | idleEval
  | simAdvance
  | setUTime
  | draw
deriving DecidableEq, BEq, Repr

/-- The three per-frame inputs the loop writes into the Flowmap instance
(flowmap.aspect, flowmap.mouse, flowmap.velocity). -/
structure FlowmapInputs where
  aspect : ℚ
  mouse : Vec2
  velocity : Vec2
deriving DecidableEq, Repr

/-- Every module-level mutable the core loop reads or writes.  `vw`, `vh`
and `winAspect` (source name winAspectRatio) are destructured/computed once
at startup (index.js lines 12-13 and 189) and never reassigned anywhere in
the program. -/
structure ProgState where
  vw : ℚ
  vh : ℚ
  winAspect : ℚ
  imageW : ℚ
  imageH : ℚ
  aspect : ℚ
  mouse : Vec2
  velocity : Vec2
  needsUpdate : Bool
  lastTime : Option ℚ
  lastMouse : Vec2
  flowmap : FlowmapInputs
  uTime : ℚ
  resUniform : Vec4Q
  rendererW : ℚ
  rendererH : ℚ
deriving DecidableEq, Repr

namespace IndexJs

/-- Transcription of resize() from src/src/js/index.js lines 630-644.
Local imgAspect (source name imgAspectRatio) is recomputed from the current
imageSize, but winAspect, vw and vh are the module variables frozen at
startup. -/
def resize (s : ProgState) : ProgState :=
  let imgAspect := s.imageH / s.imageW
  let p :=
    if s.winAspect < imgAspect then ((1 : ℚ), s.winAspect / imgAspect)
    else ((s.vw / s.vh) * imgAspect, (1 : ℚ))
  { s with
    resUniform := ⟨s.vw, s.vh, p.1, p.2⟩
    rendererW := s.vw
    rendererH := s.vh
    aspect := s.vw / s.vh }

/-- Transcription of updateMouse(e) from src/src/js/index.js lines 677-710.
Both performance.now() calls inside one handler are modelled as the single
timestamp `now`.  The `if (!lastTime)` seeding, the pixel delta against
lastMouse, and the 10.4 ms floor (Math.max(10.4, time - lastTime)) follow
the source line by line. -/
def updateMouse (now : ℚ) (e : PointerEvent) (s : ProgState) : ProgState :=
  let ex := (eventXY e).1
  let ey := (eventXY e).2
  let mouse : Vec2 := ⟨ex / s.rendererW, 1 - ey / s.rendererH⟩
  let seeded := jsTruthyNum s.lastTime
  let lastTime0 := if seeded then s.lastTime else some now
  let lastMouse0 := if seeded then s.lastMouse else (⟨ex, ey⟩ : Vec2)
  let deltaX := ex - lastMouse0.x
  let deltaY := ey - lastMouse0.y
  let lastMouse1 : Vec2 := ⟨ex, ey⟩
  let time := now
  let delta := max (52 / 5 : ℚ) (time - lastTime0.getD 0)
  { s with
    mouse := mouse
    lastTime := some time
    lastMouse := lastMouse1
    velocity := ⟨deltaX / delta, deltaY / delta⟩
    needsUpdate := true }

/-- Transcription of update(t) from src/src/js/index.js lines 713-731,
returning the next state and the externally visible calls in order.
`velocity.len` is OGL's vector length (external dependency), modelled from
the spec: truthy exactly when the vector is nonzero, i.e. when not both
components are zero.  mouse.set(-1) sets both components (OGL set(x, y=x)),
and 0.15, 0.1, 0.01 are 3/20, 1/10, 1/100. -/
def update (t : ℚ) (s : ProgState) : ProgState × List TickEvent :=
  let evs0 := [TickEvent.rearm]
  let evs1 := evs0 ++ [TickEvent.idleEval]
  let s1 := if s.needsUpdate = false then
      { s with mouse := (⟨-1, -1⟩ : Vec2), velocity := (⟨0, 0⟩ : Vec2) }
    else s
  let s2 := { s1 with needsUpdate := false }
  let s3 := { s2 with flowmap := { s2.flowmap with aspect := s2.aspect } }
  let s4 := { s3 with flowmap := { s3.flowmap with mouse := s3.mouse } }
  let rate : ℚ := if s4.velocity.x = 0 ∧ s4.velocity.y = 0 then 1 / 10 else 3 / 20
  let s5 := { s4 with flowmap :=
    { s4.flowmap with velocity := Vec2.lerp s4.flowmap.velocity s4.velocity rate } }
  let evs2 := evs1 ++ [TickEvent.simAdvance]
  let s6 := { s5 with uTime := t * (1 / 100) }
  let evs3 := evs2 ++ [TickEvent.setUTime]
  let evs4 := evs3 ++ [TickEvent.draw]
  (s6, evs4)

end IndexJs

namespace Part000

/-- Transcription of resize() from src/unnamed/part_000 lines 352-371
(the Vec4 constructor call is merely line-wrapped there). -/
def resize (s : ProgState) : ProgState :=
  let imgAspect := s.imageH / s.imageW
  let p :=
    if s.winAspect < imgAspect then ((1 : ℚ), s.winAspect / imgAspect)
    else ((s.vw / s.vh) * imgAspect, (1 : ℚ))
  { s with
    resUniform := ⟨s.vw, s.vh, p.1, p.2⟩
    rendererW := s.vw
    rendererH := s.vh
    aspect := s.vw / s.vh }

/-- Transcription of updateMouse(e) from src/unnamed/part_000
lines 404-437. -/
def updateMouse (now : ℚ) (e : PointerEvent) (s : ProgState) : ProgState :=
  let ex := (eventXY e).1
  let ey := (eventXY e).2
  let mouse : Vec2 := ⟨ex / s.rendererW, 1 - ey / s.rendererH⟩
  let seeded := jsTruthyNum s.lastTime
  let lastTime0 := if seeded then s.lastTime else some now
  let lastMouse0 := if seeded then s.lastMouse else (⟨ex, ey⟩ : Vec2)
  let deltaX := ex - lastMouse0.x
  let deltaY := ey - lastMouse0.y
  let lastMouse1 : Vec2 := ⟨ex, ey⟩
  let time := now
  let delta := max (52 / 5 : ℚ) (time - lastTime0.getD 0)
  { s with
    mouse := mouse
    lastTime := some time
    lastMouse := lastMouse1
    velocity := ⟨deltaX / delta, deltaY / delta⟩
    needsUpdate := true }

/-- Transcription of update(t) from src/unnamed/part_000 lines 440-458. -/
def update (t : ℚ) (s : ProgState) : ProgState × List TickEvent :=
  let evs0 := [TickEvent.rearm]
  let evs1 := evs0 ++ [TickEvent.idleEval]
  let s1 := if s.needsUpdate = false then
      { s with mouse := (⟨-1, -1⟩ : Vec2), velocity := (⟨0, 0⟩ : Vec2) }
    else s
  let s2 := { s1 with needsUpdate := false }
  let s3 := { s2 with flowmap := { s2.flowmap with aspect := s2.aspect } }
  let s4 := { s3 with flowmap := { s3.flowmap with mouse := s3.mouse } }
  let rate : ℚ := if s4.velocity.x = 0 ∧ s4.velocity.y = 0 then 1 / 10 else 3 / 20
  let s5 := { s4 with flowmap :=
    { s4.flowmap with velocity := Vec2.lerp s4.flowmap.velocity s4.velocity rate } }
  let evs2 := evs1 ++ [TickEvent.simAdvance]
  let s6 := { s5 with uTime := t * (1 / 100) }
  let evs3 := evs2 ++ [TickEvent.setUTime]
  let evs4 := evs3 ++ [TickEvent.draw]
  (s6, evs4)

end Part000

/-- Transcription of the compositor fragment shader main() from
src/src/js/index.js lines 40-52 (identical in src/unnamed/part_000
lines 41-53).  Textures are modelled as sampling functions UV → rgb;
`res` carries (width, height, a1, a2); the shader declares the uniform
uTime, so it is a parameter here, and as in the source the body never
uses it.  The GLSL constants .5, 0.5, 0.15, 0.7 are 1/2, 1/2, 3/20, 7/10. -/
def fragmentMain (tWater tFlow : Vec2 → Vec3) (uTime : ℚ) (res : Vec4Q)
    (vUv fragCoord : Vec2) : Vec4Q :=
  let flow := tFlow vUv
  let uv : Vec2 := ⟨1 / 2 * fragCoord.x / res.x, 1 / 2 * fragCoord.y / res.y⟩
  let myUV : Vec2 := ⟨(uv.x - 1 / 2) * res.z + 1 / 2, (uv.y - 1 / 2) * res.w + 1 / 2⟩
  let myUV2 : Vec2 :=
    ⟨myUV.x - flow.r * (3 / 20 * (7 / 10)), myUV.y - flow.g * (3 / 20 * (7 / 10))⟩
  let tex := tWater myUV2
  ⟨tex.r, tex.g, tex.b, 1⟩

/-- The state touched by pickTexture/createImage and by the host firing the
image element's load/error events (src/src/js/index.js lines 570-628,
src/unnamed/part_000 lines 297-350).  Images are identified by a number;
`log` collects console.error report codes. -/
structure PickState where
  textureImage : Option ℕ
  pendingImg : Option ℕ
  onloadSet : Bool
  onerrorSet : Bool
  srcSet : Bool
  log : List ℕ
deriving DecidableEq, Repr

/-- Report code appended to the log by the console.error onerror handler. -/
def errorReportCode : ℕ := 0

/-- Transcription of pickTexture(location) (src/src/js/index.js
lines 570-585): createImage yields a fresh img node, then the then-callback
runs `img.onload = () => (texture.image = img).onerror = (e) =>
console.error(e)`.  By JavaScript assignment grouping, this installs ONLY
the onload handler; installing the onerror handler is part of the onload
handler's own body (texture.image = img evaluates to img, whose .onerror is
then set).  Finally img.src starts the fetch.  No handler body runs here. -/
def pickTexture (s : PickState) (img : ℕ) : PickState :=
  { s with
    pendingImg := some img
    onloadSet := true
    onerrorSet := false
    srcSet := true }

/-- Host fires the image's load-success event: when the onload handler is
installed, its body assigns texture.image := img and installs the onerror
(console.error) handler on the same node. -/
def fireLoad (s : PickState) : PickState :=
  if s.onloadSet then
    { s with textureImage := s.pendingImg, onerrorSet := true }
  else s

/-- Host fires the image's error event: the onerror handler, when
installed, logs the failure via console.error; with no handler installed
the event is dropped and nothing at all happens. -/
def fireError (s : PickState) : PickState :=
  if s.onerrorSet then { s with log := s.log ++ [errorReportCode] } else s

/-- A texture already bound (image 0) and no pending load: the quiescent
state before a pickTexture call. -/
def pickInit : PickState :=
  { textureImage := some 0
    pendingImg := none
    onloadSet := false
    onerrorSet := false
    srcSet := false
    log := [] }

/-- The window resize event: the browser updates window.innerWidth and
window.innerHeight to (newW, newH) and then dispatches to the registered
handler, which is resize (index.js line 405).  resize reads only the module
variables vw/vh/winAspect captured at startup (lines 12-13, 189) and never
re-reads the window, so the new dimensions are unused. -/
def fireResizeEvent (s : ProgState) (_newW _newH : ℚ) : ProgState :=
  IndexJs.resize s

/-- Module state right after startup in a 1920 by 1080 window: vw/vh are
destructured from the window once, winAspect = vh/vw is computed once, the
default imageSize is 3000 by 4000, and the initial resize() call has filled
the res uniform, renderer size and aspect. -/
def startupState : ProgState :=
  { vw := 1920
    vh := 1080
    winAspect := 1080 / 1920
    imageW := 3000
    imageH := 4000
    aspect := 1920 / 1080
    mouse := ⟨-1, -1⟩
    velocity := ⟨0, 0⟩
    needsUpdate := false
    lastTime := none
    lastMouse := ⟨0, 0⟩
    flowmap := ⟨1, ⟨0, 0⟩, ⟨0, 0⟩⟩
    uTime := 0
    resUniform := ⟨1920, 1080, 1, 27 / 64⟩
    rendererW := 1920
    rendererH := 1080 }

/-- Helper: a Vec2 equals the zero vector exactly when both of its
components are zero (the truthiness condition of the velocity length). -/
theorem Vec2.eq_zero_iff (v : Vec2) : v = (⟨0, 0⟩ : Vec2) ↔ v.x = 0 ∧ v.y = 0 := by
  cases v
  simp [Vec2.mk.injEq]

/-- C6: for every fragment, the compositor computes a base UV as
0.5 * gl_FragCoord.xy / res.xy, rescales it around 0.5 by (a1, a2) =
res.zw, subtracts the RG channels of the flow texture sampled at the
unscaled varying UV multiplied by 0.15 * 0.7, samples the display image at
the resulting UV, and outputs that RGB with alpha exactly 1.0. -/
theorem fragment_compositor_formula (tWater tFlow : Vec2 → Vec3) (uTime : ℚ)
    (res : Vec4Q) (vUv fragCoord : Vec2) :
    fragmentMain tWater tFlow uTime res vUv fragCoord =
      ⟨(tWater ⟨(1 / 2 * fragCoord.x / res.x - 1 / 2) * res.z + 1 / 2
            - (tFlow vUv).r * (3 / 20 * (7 / 10)),
          (1 / 2 * fragCoord.y / res.y - 1 / 2) * res.w + 1 / 2
            - (tFlow vUv).g * (3 / 20 * (7 / 10))⟩).r,
        (tWater ⟨(1 / 2 * fragCoord.x / res.x - 1 / 2) * res.z + 1 / 2
            - (tFlow vUv).r * (3 / 20 * (7 / 10)),
          (1 / 2 * fragCoord.y / res.y - 1 / 2) * res.w + 1 / 2
            - (tFlow vUv).g * (3 / 20 * (7 / 10))⟩).g,
        (tWater ⟨(1 / 2 * fragCoord.x / res.x - 1 / 2) * res.z + 1 / 2
            - (tFlow vUv).r * (3 / 20 * (7 / 10)),
          (1 / 2 * fragCoord.y / res.y - 1 / 2) * res.w + 1 / 2
            - (tFlow vUv).g * (3 / 20 * (7 / 10))⟩).b,
        1⟩ :=
  rfl

/-- C8: two evaluations of the compositor fragment shader that agree on
tWater, tFlow, res, the varying UV and the fragment position but differ in
the uTime uniform produce the same output color: the fragment logic
declares uTime but never reads it. -/
theorem fragment_ignores_uTime (tWater tFlow : Vec2 → Vec3) (t1 t2 : ℚ)
    (res : Vec4Q) (vUv fragCoord : Vec2) :
    fragmentMain tWater tFlow t1 res vUv fragCoord =
      fragmentMain tWater tFlow t2 res vUv fragCoord :=
  rfl

/-- C7: every frame tick unconditionally performs, in this order: re-arm
the next tick, evaluate the idle/active transition of the pointer state,
advance the flow simulator, update the uTime uniform, and issue exactly one
draw of the compositor pass. -/
theorem update_tick_sequence (t : ℚ) (s : ProgState) :
    (IndexJs.update t s).2 =
      [TickEvent.rearm, TickEvent.idleEval, TickEvent.simAdvance,
        TickEvent.setUTime, TickEvent.draw] ∧
    (IndexJs.update t s).2.count TickEvent.draw = 1 :=
  ⟨rfl, rfl⟩

/-- C10: the two shipped copies of the core loop, resize, updateMouse and
update in src/src/js/index.js and in src/unnamed/part_000, are
extensionally equal: on the same inputs and the same prior state each pair
produces the same successor state (pointer state and uniform values
included) and the same sequence of external calls. -/
theorem copies_extensionally_equal :
    (∀ s, IndexJs.resize s = Part000.resize s) ∧
    (∀ now e s, IndexJs.updateMouse now e s = Part000.updateMouse now e s) ∧
    (∀ t s, IndexJs.update t s = Part000.update t s) :=
  ⟨fun _ => rfl, fun _ _ _ => rfl, fun _ _ => rfl⟩

/-- C9 counterexample: with image 0 bound, pickTexture starts loading
image 1 and the fetch then fails (the host fires the error event before any
load event).  The log stays empty — the failure is not logged or reported,
because the onerror handler would only have been installed by the
load-success handler — refuting the claim that a failed fetch is
logged/reported.  The previously bound image does remain bound. -/
theorem pickTexture_error_unreported_cex :
    (fireError (pickTexture pickInit 1)).log = [] ∧
    (fireError (pickTexture pickInit 1)).textureImage = some 0 :=
  ⟨rfl, rfl⟩

/-- C9 amended: if an image fetch initiated by pickTexture fails before the
new image has ever fired a successful load, the error event is a complete
no-op — the previously bound display image remains bound (texture.image is
assigned only inside the load-success handler, as the success path shows)
and the frame loop is untouched — but the failure is NOT logged or
reported, since the onerror handler is only installed by the load-success
handler itself. -/
theorem pickTexture_error_keeps_texture (s : PickState) (i : ℕ) :
    fireError (pickTexture s i) = pickTexture s i ∧
    (pickTexture s i).textureImage = s.textureImage ∧
    (fireLoad (pickTexture s i)).textureImage = some i := by
  refine ⟨?_, rfl, ?_⟩
  · simp [fireError, pickTexture]
  · simp [fireLoad, pickTexture]

/-- C2: the resize recomputation does NOT use the then-current viewport.
First, the handler's result is independent of the window dimensions in
force when the resize event fires (vw/vh/winAspect are frozen at startup
and window.innerWidth is never re-read).  Second, concretely: starting from
a 1920 by 1080 window with the 3000 by 4000 image, resizing the window to
1080 by 1920 leaves the res uniform at the startup-based
(1920, 1080, 1, 27/64) and the renderer at 1920 by 1080, where the claim's
then-current recomputation would give (1080, 1920, 3/4, 1). -/
theorem resize_ignores_current_viewport :
    (∀ s w h w2 h2, fireResizeEvent s w h = fireResizeEvent s w2 h2) ∧
    (fireResizeEvent startupState 1080 1920).resUniform = ⟨1920, 1080, 1, 27 / 64⟩ ∧
    (fireResizeEvent startupState 1080 1920).rendererW = 1920 ∧
    (fireResizeEvent startupState 1080 1920).rendererH = 1080 := by
  refine ⟨fun _ _ _ _ _ => rfl, ?_, rfl, rfl⟩
  show (IndexJs.resize startupState).resUniform = _
  norm_num [IndexJs.resize, startupState, Vec4Q.mk.injEq]

/-- C1: on every frame tick, the flow simulator's smoothed internal
velocity (flowmap.velocity) is eased toward the raw pointer velocity read
by that tick by linear interpolation whose rate is 0.15 when that raw
velocity is non-zero and 0.1 when it is zero.  (The zero test models the
truthiness of the external OGL Vec2 length: nonzero length iff nonzero
vector.) -/
theorem update_velocity_lerp_rate (t : ℚ) (s : ProgState) :
    (IndexJs.update t s).1.flowmap.velocity =
      Vec2.lerp s.flowmap.velocity (IndexJs.update t s).1.velocity
        (if (IndexJs.update t s).1.velocity = (⟨0, 0⟩ : Vec2) then 1 / 10
          else 3 / 20) := by
  by_cases h : s.needsUpdate = false <;>
    simp [IndexJs.update, h, Vec2.eq_zero_iff]

/-- C4: a frame tick at whose start the one-shot moved flag is unset reads
the sentinel pointer position (-1, -1) (also the value copied into the
simulator that tick) and the zero velocity, whatever their prior values
were; and the flag is cleared on every tick, so one pointer event is
consumed by at most one tick. -/
theorem update_idle_snap (t : ℚ) (s : ProgState) :
    (IndexJs.update t s).1.needsUpdate = false ∧
    (s.needsUpdate = false →
      (IndexJs.update t s).1.mouse = (⟨-1, -1⟩ : Vec2) ∧
      (IndexJs.update t s).1.velocity = (⟨0, 0⟩ : Vec2) ∧
      (IndexJs.update t s).1.flowmap.mouse = (⟨-1, -1⟩ : Vec2)) := by
  refine ⟨rfl, fun h => ?_⟩
  simp [IndexJs.update, h]

/-- C4 witness: the idle-snap theorem applied at a tick on the startup
state, whose moved flag is unset. -/
theorem update_idle_snap_witness :
    (IndexJs.update 7 startupState).1.mouse = (⟨-1, -1⟩ : Vec2) ∧
    (IndexJs.update 7 startupState).1.velocity = (⟨0, 0⟩ : Vec2) ∧
    (IndexJs.update 7 startupState).1.flowmap.mouse = (⟨-1, -1⟩ : Vec2) :=
  (update_idle_snap 7 startupState).2 rfl

/-- C3: for every pointer-move event after the first (lastTime already
holds a nonzero timestamp), the computed raw velocity equals the pixel
delta from the previous event divided by max(elapsed, 10.4). -/
theorem updateMouse_velocity_floor (now : ℚ) (e : PointerEvent)
    (s : ProgState) (t0 : ℚ) (hl : s.lastTime = some t0) (h0 : t0 ≠ 0) :
    (IndexJs.updateMouse now e s).velocity =
      ⟨((eventXY e).1 - s.lastMouse.x) / max (now - t0) (52 / 5),
        ((eventXY e).2 - s.lastMouse.y) / max (now - t0) (52 / 5)⟩ := by
  simp [IndexJs.updateMouse, hl, jsTruthyNum, h0, max_comm]

/-- Pointer-move event at device pixel (5, 5), used by the C3 witness. -/
def eventEx : PointerEvent :=
  { changedTouches := []
    xInit := some 5
    yInit := some 5
    pageX := 5
    pageY := 5 }

/-- Prior state for the C3 witness: previous event at time 100 ms at pixel
(0, 0). -/
def stateEx : ProgState :=
  { startupState with lastTime := some 100, lastMouse := ⟨0, 0⟩ }

/-- C3 witness: 1 ms after the previous event, a delta of (5, 5) pixels
yields velocity (5/10.4, 5/10.4) = (25/52, 25/52), not (5, 5). -/
theorem updateMouse_velocity_floor_witness :
    (IndexJs.updateMouse 101 eventEx stateEx).velocity =
      (⟨25 / 52, 25 / 52⟩ : Vec2) ∧ (25 / 52 : ℚ) ≠ 5 := by
  have h := updateMouse_velocity_floor 101 eventEx stateEx 100 rfl (by norm_num)
  rw [h]
  have hm : max (101 - 100 : ℚ) (52 / 5) = 52 / 5 := max_eq_right (by norm_num)
  constructor
  · rw [hm]
    norm_num [eventXY, eventEx, stateEx, startupState, Vec2.mk.injEq]
  · norm_num

/-- C5: the resize computation, applied to the viewport (vw, vh) it uses
(whose stored aspect winAspect is vh/vw) and the current image
(imageW, imageH): when vh/vw < imageH/imageW it produces a1 = 1 and
a2 = (vh/vw)/(imageH/imageW), and otherwise a1 = (vw/vh)*(imageH/imageW)
and a2 = 1, publishing them as res.z and res.w. -/
theorem resize_aspect_factors (s : ProgState)
    (hw : s.winAspect = s.vh / s.vw) :
    (s.vh / s.vw < s.imageH / s.imageW →
      (IndexJs.resize s).resUniform.z = 1 ∧
      (IndexJs.resize s).resUniform.w =
        (s.vh / s.vw) / (s.imageH / s.imageW)) ∧
    (¬ s.vh / s.vw < s.imageH / s.imageW →
      (IndexJs.resize s).resUniform.z = (s.vw / s.vh) * (s.imageH / s.imageW) ∧
      (IndexJs.resize s).resUniform.w = 1) := by
  constructor <;> intro h <;> simp [IndexJs.resize, hw, h]

/-- C5 witness: viewport 1920 by 1080 with image 3000 by 4000 takes the
first branch (9/16 < 4/3) and gives a1 = 1, a2 = 27/64 = 0.421875. -/
theorem resize_aspect_factors_witness :
    (IndexJs.resize startupState).resUniform.z = 1 ∧
    (IndexJs.resize startupState).resUniform.w = 27 / 64 := by
  have h := (resize_aspect_factors startupState
    (by norm_num [startupState])).1 (by norm_num [startupState])
  refine ⟨h.1, ?_⟩
  rw [h.2]
  norm_num [startupState]

end FlowmapEffect
